import Mathlib

/-!
Shallow embedding of two driver adapters of the griptape repository:
`HuggingFaceHubPromptDriver` (src/griptape/drivers/prompt/hugging_face_hub_prompt_driver.py)
and `OpenAiEmbeddingDriver` (src/griptape/drivers/embedding/openai_embedding_driver.py),
together with theorems settling the specification claims about them.

External collaborators (the inference client, the PII processor hooks, the
OpenAI embedding endpoint) are modelled as function-valued fields, so the
theorems quantify over their behaviour; observable calls made by the drivers
are recorded in an explicit event trace.
-/

namespace Griptape

/-- A role-tagged entry of a prompt stack (`PromptStack.Input` of griptape.utils). -/
structure PromptInput where
  role : String
  content : String
  deriving DecidableEq

/-- An ordered sequence of role-tagged prompt entries (`PromptStack` of griptape.utils). -/
structure PromptStack where
  inputs : List PromptInput
  deriving DecidableEq

/-- A typed wrapper holding generated text (`griptape.artifacts.TextArtifact`). -/
structure TextArtifact where
  value : String
  deriving DecidableEq

/-- A value stored in a Python dictionary of model-run parameters. -/
inductive PVal where
  | bool (b : Bool)
  | nat (n : Nat)
  | str (s : String)
  deriving DecidableEq

/-- A Python dictionary with string keys, modelled as an association list kept in
insertion order; a key occurs at most once in dictionaries built by the code. -/
abbrev PyDict := List (String × PVal)

/-- Python dictionary lookup `d[k]`: the first occurrence of the key wins. -/
def dictLookup (d : PyDict) (k : String) : Option PVal :=
  match d with
  | [] => none
  | (k₀, v₀) :: rest => if k₀ = k then some v₀ else dictLookup rest k

/-- Python dictionary merge `d | u`: keys of `d` first (with the value from `u`
when `u` also has the key), then the keys of `u` not present in `d`, in order. -/
def dictUnion (d u : PyDict) : PyDict :=
  d.map (fun kv =>
    match dictLookup u kv.1 with
    | some v => (kv.1, v)
    | none => kv)
  ++ u.filter (fun kv => (dictLookup d kv.1).isNone)

/-- The whitespace characters Python str.strip removes by default. -/
def isPyWhitespace (c : Char) : Bool :=
  c == ' ' || c == '\t' || c == '\n' || c == '\r' || c == '\x0b' || c == '\x0c'

/-- Python `s.strip()`: the string with leading and trailing whitespace removed. -/
def pyStrip (s : String) : String :=
  ⟨((s.data.dropWhile isPyWhitespace).reverse.dropWhile isPyWhitespace).reverse⟩

/-- Python `s.endswith(t)`: whether `t` is a suffix of `s`. -/
def pyEndsWith (s t : String) : Bool := t.data.isSuffixOf s.data

/-- Python `s.replace("\n", " ")`: every occurrence of the one-character pattern
"\n" replaced by " ", which for a single-character pattern is a character map. -/
def pyReplaceNewline (s : String) : String :=
  ⟨s.data.map (fun c => if c == '\n' then ' ' else c)⟩

/-- One choice of a Hugging Face Hub inference response: a dictionary holding the
generated text under the key "generated_text". -/
structure HFChoice where
  generated_text : String
  deriving DecidableEq

/-- A raw Hugging Face Hub inference response: a list of choices. -/
abbrev HFResponse := List HFChoice

/-- The `InferenceApi` client: its configured task and the callable taking the
`inputs` string and the `params` dictionary (modelled as a pure oracle). -/
structure InferenceApi where
  task : String
  call : String → PyDict → HFResponse

/-- The PII processor (`BasePromptStackProcessor`): the pre-call hook `before_run`
on the prompt stack and the post-call hook `after_run` on the raw response. -/
structure PiiProcessor where
  before_run : PromptStack → PromptStack
  after_run : HFResponse → HFResponse

/-- `HuggingFaceHubPromptDriver.SUPPORTED_TASKS`. -/
def SUPPORTED_TASKS : List String := ["text2text-generation", "text-generation"]

/-- `HuggingFaceHubPromptDriver.MAX_NEW_TOKENS`. -/
def MAX_NEW_TOKENS : Nat := 250

/-- `HuggingFaceHubPromptDriver.DEFAULT_PARAMS`. -/
def DEFAULT_PARAMS : PyDict :=
  [("return_full_text", PVal.bool false), ("max_new_tokens", PVal.nat MAX_NEW_TOKENS)]

/-- The `HuggingFaceHubPromptDriver` instance state. The `prompt_stack_to_string`
field is the method inherited from `BasePromptDriver`.
Modelled from the spec: `BasePromptDriver.prompt_stack_to_string` is not under
src/; the spec only says the driver flattens the processed prompt stack to a
single string, so it is kept as an abstract function-valued field. -/
structure HuggingFaceHubPromptDriver where
  api_token : String
  use_gpu : Bool
  params : PyDict
  model : String
  client : InferenceApi
  pii_processor : PiiProcessor
  prompt_stack_to_string : PromptStack → String
  stream : Bool

/-- The attrs validator `validate_stream`: raises `ValueError` when `stream` is true. -/
def validate_stream (stream : Bool) : Except String Unit :=
  if stream then Except.error "streaming is not supported" else Except.ok ()

/-- Construction of a `HuggingFaceHubPromptDriver`: attrs runs the field
validators during `__init__`, so a raising validator prevents the instance
from being produced. -/
def mkHuggingFaceHubPromptDriver (api_token : String) (use_gpu : Bool) (params : PyDict)
    (model : String) (client : InferenceApi) (pii_processor : PiiProcessor)
    (prompt_stack_to_string : PromptStack → String) (stream : Bool) :
    Except String HuggingFaceHubPromptDriver :=
  match validate_stream stream with
  | Except.error e => Except.error e
  | Except.ok _ =>
      Except.ok
        { api_token := api_token, use_gpu := use_gpu, params := params, model := model,
          client := client, pii_processor := pii_processor,
          prompt_stack_to_string := prompt_stack_to_string, stream := stream }

/-- An observable call performed by `try_run`, in order of occurrence. -/
inductive HFEvent where
  | beforeRunCall (stack : PromptStack)
  | clientCall (inputs : String) (params : PyDict)
  | afterRunCall (response : HFResponse)
  deriving DecidableEq

/-- `HuggingFaceHubPromptDriver.try_run`: the returned artifact or raised error,
paired with the trace of observable calls in the order the code performs them. -/
def tryRun (d : HuggingFaceHubPromptDriver) (prompt_stack : PromptStack) :
    Except String TextArtifact × List HFEvent :=
  let processed_prompt_stack := d.pii_processor.before_run prompt_stack
  let prompt := d.prompt_stack_to_string processed_prompt_stack
  if SUPPORTED_TASKS.contains d.client.task then
    let runParams := dictUnion DEFAULT_PARAMS d.params
    let response := d.client.call prompt runParams
    let processed_response := d.pii_processor.after_run response
    if processed_response.length = 1 then
      (Except.ok ⟨pyStrip (processed_response.headD ⟨""⟩).generated_text⟩,
        [HFEvent.beforeRunCall prompt_stack, HFEvent.clientCall prompt runParams,
          HFEvent.afterRunCall response])
    else
      (Except.error "completion with more than one choice is not supported yet",
        [HFEvent.beforeRunCall prompt_stack, HFEvent.clientCall prompt runParams,
          HFEvent.afterRunCall response])
  else
    (Except.error "only models with the following tasks are supported: [text2text-generation, text-generation]",
      [HFEvent.beforeRunCall prompt_stack])

/-- `HuggingFaceHubPromptDriver.try_stream`: unconditionally raises `NotImplementedError`. -/
def tryStream (_d : HuggingFaceHubPromptDriver) (_prompt_stack : PromptStack) :
    Except String (List TextArtifact) :=
  Except.error "streaming is not supported"

/-- The post-redaction response `try_run` inspects: the raw client response run
through the `after_run` hook. -/
def postResponse (d : HuggingFaceHubPromptDriver) (prompt_stack : PromptStack) : HFResponse :=
  d.pii_processor.after_run
    (d.client.call (d.prompt_stack_to_string (d.pii_processor.before_run prompt_stack))
      (dictUnion DEFAULT_PARAMS d.params))

/-- The process-wide `openai` module configuration mutated by the embedding
driver on construction. -/
structure OpenAiGlobalConfig where
  api_type : String
  api_version : Option String
  api_base : String
  api_key : Option String
  organization : Option String
  deriving DecidableEq

/-- The `OpenAiEmbeddingDriver` instance state (fields the claims depend on). -/
structure OpenAiEmbeddingDriver where
  model : String
  dimensions : Nat
  api_type : String
  api_version : Option String
  api_base : String
  api_key : Option String
  organization : Option String
  deriving DecidableEq

/-- `OpenAiEmbeddingDriver.__attrs_post_init__`: copies the instance fields onto
the process-wide `openai` configuration, returning the new global state. -/
def attrs_post_init (d : OpenAiEmbeddingDriver) (_g : OpenAiGlobalConfig) : OpenAiGlobalConfig :=
  { api_type := d.api_type, api_version := d.api_version, api_base := d.api_base,
    api_key := d.api_key, organization := d.organization }

/-- The keyword arguments of one `openai.Embedding.create` call, as built by
`OpenAiEmbeddingDriver._params`. -/
structure EmbeddingParams where
  input : String
  model : String
  api_key : Option String
  organization : Option String
  api_version : Option String
  api_base : String
  api_type : String
  deriving DecidableEq

/-- An embedding vector; its numeric entries are only passed through, so they
are modelled as rationals. -/
abbrev EmbeddingVector := List Rat

/-- One entry of the "data" list of an `openai.Embedding.create` response. -/
structure EmbeddingDataEntry where
  embedding : EmbeddingVector
  deriving DecidableEq

/-- An `openai.Embedding.create` response: a dictionary whose "data" key holds
a list of entries. -/
structure EmbeddingResponse where
  data : List EmbeddingDataEntry
  deriving DecidableEq

/-- `OpenAiEmbeddingDriver._params`. -/
def embeddingParams (d : OpenAiEmbeddingDriver) (chunk : String) : EmbeddingParams :=
  { input := chunk, model := d.model, api_key := d.api_key,
    organization := d.organization, api_version := d.api_version,
    api_base := d.api_base, api_type := d.api_type }

/-- `OpenAiEmbeddingDriver.try_embed_chunk`: the value of the returned vector
(`none` models the `IndexError` raised when the response "data" list is empty),
paired with the trace of `openai.Embedding.create` requests submitted. The
endpoint itself is external and passed as the oracle `create`. -/
def tryEmbedChunk (d : OpenAiEmbeddingDriver) (create : EmbeddingParams → EmbeddingResponse)
    (chunk : String) : Option EmbeddingVector × List EmbeddingParams :=
  let chunk := if pyEndsWith d.model "001" then pyReplaceNewline chunk else chunk
  let req := embeddingParams d chunk
  ((create req).data.head?.map (fun e => e.embedding), [req])

/-- Lookup in an appended association list: the left part wins when it has the key. -/
theorem dictLookup_append (a b : PyDict) (k : String) :
    dictLookup (a ++ b) k =
      if (dictLookup a k).isSome then dictLookup a k else dictLookup b k := by
  induction a with
  | nil => simp [dictLookup]
  | cons kv rest ih =>
      by_cases h : kv.1 = k
      · simp [dictLookup, h]
      · simp [dictLookup, h, ih]

/-- Lookup in the mapped left part of `dictUnion`: keys of `d` survive, with the
value from `u` when `u` also has the key. -/
theorem dictLookup_mapLeft (d u : PyDict) (k : String) :
    dictLookup
      (d.map (fun kv =>
        match dictLookup u kv.1 with
        | some v => (kv.1, v)
        | none => kv)) k =
      match dictLookup d k, dictLookup u k with
      | none, _ => none
      | some _, some v => some v
      | some v₀, none => some v₀ := by
  induction d with
  | nil => simp [dictLookup]
  | cons kv rest ih =>
      by_cases h : kv.1 = k
      · subst h
        cases hu : dictLookup u kv.1 <;> simp [dictLookup, hu]
      · cases hu : dictLookup u kv.1 <;> simp [dictLookup, h, hu, ih]

/-- Lookup in the filtered right part of `dictUnion`: keys already in `d` are
dropped, the remaining ones keep their value from `u`. -/
theorem dictLookup_filterRight (d u : PyDict) (k : String) :
    dictLookup (u.filter (fun kv => (dictLookup d kv.1).isNone)) k =
      if (dictLookup d k).isNone then dictLookup u k else none := by
  induction u with
  | nil => simp [dictLookup]
  | cons kv rest ih =>
      by_cases h : kv.1 = k
      · subst h
        cases hd : dictLookup d kv.1 <;>
          simp [List.filter, dictLookup, hd, ih]
      · cases hd : dictLookup d kv.1 <;>
          simp_all [List.filter, dictLookup, h, ih]

/-- Python dict-merge semantics of `dictUnion`: on every key the right operand
takes precedence, falling back to the left operand. -/
theorem dictLookup_dictUnion (d u : PyDict) (k : String) :
    dictLookup (dictUnion d u) k =
      if (dictLookup u k).isSome then dictLookup u k else dictLookup d k := by
  rw [dictUnion, dictLookup_append, dictLookup_mapLeft, dictLookup_filterRight]
  cases hd : dictLookup d k <;> cases hu : dictLookup u k <;> simp

/-- The identity PII processor, a concrete hook instance for witnesses. -/
def idProcessor : PiiProcessor := { before_run := fun ps => ps, after_run := fun r => r }

/-- A concrete prompt stack used in witnesses and counterexamples. -/
def sampleStack : PromptStack := { inputs := [{ role := "user", content := "hi" }] }

/-- A concrete client configured with a task outside the allow-list. -/
def cexClient : InferenceApi := { task := "summarization", call := fun _ _ => [] }

/-- A concrete driver whose client task is outside the allow-list. -/
def cexDriver : HuggingFaceHubPromptDriver :=
  { api_token := "t", use_gpu := false, params := [], model := "m", client := cexClient,
    pii_processor := idProcessor, prompt_stack_to_string := fun _ => "", stream := false }

/-- A concrete client with a supported task returning exactly one choice. -/
def okClient : InferenceApi :=
  { task := "text-generation", call := fun _ _ => [{ generated_text := "  hello  " }] }

/-- A concrete driver with a supported task and one user-supplied run parameter. -/
def okDriver : HuggingFaceHubPromptDriver :=
  { api_token := "t", use_gpu := false, params := [("max_new_tokens", PVal.nat 42)],
    model := "gpt2", client := okClient, pii_processor := idProcessor,
    prompt_stack_to_string := fun ps => String.intercalate " " (ps.inputs.map (fun i => i.content)),
    stream := false }

/-- A concrete client with a supported task returning zero choices. -/
def emptyClient : InferenceApi := { task := "text2text-generation", call := fun _ _ => [] }

/-- A concrete driver with a supported task whose client returns zero choices. -/
def emptyDriver : HuggingFaceHubPromptDriver :=
  { api_token := "t", use_gpu := false, params := [], model := "m", client := emptyClient,
    pii_processor := idProcessor, prompt_stack_to_string := fun _ => "", stream := false }

/-- C1 counterexample: with a client task outside the allow-list, `try_run` does
raise an error, but the claim that no redaction-hook call is performed is false:
the trace shows the `before_run` hook call, which the code performs
unconditionally before the task check. -/
theorem hfC1_counterexample :
    SUPPORTED_TASKS.contains cexClient.task = false ∧
    (tryRun cexDriver sampleStack).1 =
      Except.error "only models with the following tasks are supported: [text2text-generation, text-generation]" ∧
    (tryRun cexDriver sampleStack).2 = [HFEvent.beforeRunCall sampleStack] :=
  ⟨by decide, rfl, rfl⟩

/-- C1 (amended): with a client task outside the allow-list, `try_run` raises an
error and performs no client call and no `after_run` hook call, but it does
perform exactly one `before_run` hook call, made before the task check. -/
theorem hfC1_unsupported_task_raises (d : HuggingFaceHubPromptDriver) (ps : PromptStack)
    (h : SUPPORTED_TASKS.contains d.client.task = false) :
    (tryRun d ps).1 =
      Except.error "only models with the following tasks are supported: [text2text-generation, text-generation]" ∧
    (tryRun d ps).2 = [HFEvent.beforeRunCall ps] := by
  have hm : d.client.task ∉ SUPPORTED_TASKS := by simpa using h
  simp [tryRun, hm]

/-- C1 witness: the amended theorem applied to a concrete driver and stack. -/
theorem hfC1_unsupported_task_raises_witness :
    SUPPORTED_TASKS.contains cexDriver.client.task = false ∧
    ((tryRun cexDriver sampleStack).1 =
      Except.error "only models with the following tasks are supported: [text2text-generation, text-generation]" ∧
     (tryRun cexDriver sampleStack).2 = [HFEvent.beforeRunCall sampleStack]) :=
  ⟨by decide, hfC1_unsupported_task_raises cexDriver sampleStack (by decide)⟩

/-- C3: with a supported task, a post-redaction response with exactly one choice
makes `try_run` return an artifact whose text is the choice's generated text
with leading and trailing whitespace stripped, and a response with more than one
choice makes it raise an error. -/
theorem hfC3_choice_count (d : HuggingFaceHubPromptDriver) (ps : PromptStack)
    (hTask : SUPPORTED_TASKS.contains d.client.task = true) :
    ((postResponse d ps).length = 1 →
      (tryRun d ps).1 =
        Except.ok ⟨pyStrip ((postResponse d ps).headD ⟨""⟩).generated_text⟩) ∧
    (1 < (postResponse d ps).length →
      (tryRun d ps).1 =
        Except.error "completion with more than one choice is not supported yet") := by
  have hm : d.client.task ∈ SUPPORTED_TASKS := by simpa using hTask
  constructor
  · intro h
    simp only [postResponse] at h
    simp [tryRun, postResponse, hm, h]
  · intro h
    have h1 : ¬ (postResponse d ps).length = 1 := by omega
    simp only [postResponse] at h1
    simp [tryRun, hm, h1]

/-- C3 witness: the theorem applied to a concrete driver whose client returns a
single choice with padded text. -/
theorem hfC3_choice_count_witness :
    SUPPORTED_TASKS.contains okDriver.client.task = true ∧
    (((postResponse okDriver sampleStack).length = 1 →
      (tryRun okDriver sampleStack).1 =
        Except.ok ⟨pyStrip ((postResponse okDriver sampleStack).headD ⟨""⟩).generated_text⟩) ∧
     (1 < (postResponse okDriver sampleStack).length →
      (tryRun okDriver sampleStack).1 =
        Except.error "completion with more than one choice is not supported yet")) ∧
    (tryRun okDriver sampleStack).1 = Except.ok ⟨"hello"⟩ :=
  ⟨by decide, hfC3_choice_count okDriver sampleStack (by decide), rfl⟩

/-- C4: constructing the driver with `stream` set to true fails the attrs
validation with an error, so no driver instance is produced, whatever the other
configuration fields are. -/
theorem hfC4_stream_construction_fails (api_token : String) (use_gpu : Bool) (params : PyDict)
    (model : String) (client : InferenceApi) (pii_processor : PiiProcessor)
    (toStr : PromptStack → String) :
    mkHuggingFaceHubPromptDriver api_token use_gpu params model client pii_processor
      toStr true = Except.error "streaming is not supported" := rfl

/-- C5: `try_stream` raises a not-implemented error for every driver and every
prompt stack, performing no other action. -/
theorem hfC5_try_stream_raises (d : HuggingFaceHubPromptDriver) (ps : PromptStack) :
    tryStream d ps = Except.error "streaming is not supported" := rfl

/-- C6: with a supported task and a single-choice post-redaction response,
`try_run` performs, in order, the `before_run` hook on the stack, the client
call on the flattened processed stack with the merged parameters, and the
`after_run` hook on the raw response, and returns exactly one generated-text
artifact. -/
theorem hfC6_pipeline (d : HuggingFaceHubPromptDriver) (ps : PromptStack)
    (hTask : SUPPORTED_TASKS.contains d.client.task = true)
    (hLen : (postResponse d ps).length = 1) :
    tryRun d ps =
      (Except.ok ⟨pyStrip ((postResponse d ps).headD ⟨""⟩).generated_text⟩,
        [HFEvent.beforeRunCall ps,
         HFEvent.clientCall (d.prompt_stack_to_string (d.pii_processor.before_run ps))
           (dictUnion DEFAULT_PARAMS d.params),
         HFEvent.afterRunCall
           (d.client.call (d.prompt_stack_to_string (d.pii_processor.before_run ps))
             (dictUnion DEFAULT_PARAMS d.params))]) := by
  have hm : d.client.task ∈ SUPPORTED_TASKS := by simpa using hTask
  simp only [postResponse] at hLen
  simp [tryRun, postResponse, hm, hLen]

/-- C6 witness: the pipeline theorem applied to a concrete driver and stack. -/
theorem hfC6_pipeline_witness :
    (SUPPORTED_TASKS.contains okDriver.client.task = true ∧
     (postResponse okDriver sampleStack).length = 1) ∧
    tryRun okDriver sampleStack =
      (Except.ok ⟨pyStrip ((postResponse okDriver sampleStack).headD ⟨""⟩).generated_text⟩,
        [HFEvent.beforeRunCall sampleStack,
         HFEvent.clientCall
           (okDriver.prompt_stack_to_string (okDriver.pii_processor.before_run sampleStack))
           (dictUnion DEFAULT_PARAMS okDriver.params),
         HFEvent.afterRunCall
           (okDriver.client.call
             (okDriver.prompt_stack_to_string (okDriver.pii_processor.before_run sampleStack))
             (dictUnion DEFAULT_PARAMS okDriver.params))]) :=
  ⟨⟨by decide, by decide⟩, hfC6_pipeline okDriver sampleStack (by decide) (by decide)⟩

/-- C9: with a supported task, a post-redaction response with zero choices makes
`try_run` raise an error, and an artifact is returned only when the response has
exactly one choice. -/
theorem hfC9_zero_choices (d : HuggingFaceHubPromptDriver) (ps : PromptStack)
    (hTask : SUPPORTED_TASKS.contains d.client.task = true) :
    ((postResponse d ps).length = 0 →
      (tryRun d ps).1 =
        Except.error "completion with more than one choice is not supported yet") ∧
    (∀ a : TextArtifact, (tryRun d ps).1 = Except.ok a →
      (postResponse d ps).length = 1) := by
  have hm : d.client.task ∈ SUPPORTED_TASKS := by simpa using hTask
  constructor
  · intro h
    have h1 : ¬ (postResponse d ps).length = 1 := by omega
    simp only [postResponse] at h1
    simp [tryRun, hm, h1]
  · intro a ha
    by_contra hne
    simp only [postResponse] at hne
    simp [tryRun, hm, hne] at ha

/-- C9 witness: the theorem applied to a concrete driver whose client returns an
empty response, with the resulting error evaluated. -/
theorem hfC9_zero_choices_witness :
    SUPPORTED_TASKS.contains emptyDriver.client.task = true ∧
    (((postResponse emptyDriver sampleStack).length = 0 →
      (tryRun emptyDriver sampleStack).1 =
        Except.error "completion with more than one choice is not supported yet") ∧
     (∀ a : TextArtifact, (tryRun emptyDriver sampleStack).1 = Except.ok a →
      (postResponse emptyDriver sampleStack).length = 1)) ∧
    (postResponse emptyDriver sampleStack).length = 0 :=
  ⟨by decide, hfC9_zero_choices emptyDriver sampleStack (by decide), by decide⟩

/-- C10: with a supported task, the parameters submitted to the client are the
defaults merged with the user params, and on every key the user params take
precedence over the defaults. -/
theorem hfC10_params_merge (d : HuggingFaceHubPromptDriver) (ps : PromptStack)
    (hTask : SUPPORTED_TASKS.contains d.client.task = true) (k : String) :
    HFEvent.clientCall (d.prompt_stack_to_string (d.pii_processor.before_run ps))
        (dictUnion DEFAULT_PARAMS d.params) ∈ (tryRun d ps).2 ∧
    dictLookup (dictUnion DEFAULT_PARAMS d.params) k =
      (if (dictLookup d.params k).isSome then dictLookup d.params k
       else dictLookup DEFAULT_PARAMS k) := by
  have hm : d.client.task ∈ SUPPORTED_TASKS := by simpa using hTask
  refine ⟨?_, dictLookup_dictUnion DEFAULT_PARAMS d.params k⟩
  by_cases h : (postResponse d ps).length = 1
  all_goals simp only [postResponse] at h
  all_goals simp [tryRun, hm, h]

/-- C10 witness: the theorem applied to a concrete driver whose user params
override `max_new_tokens`, with the winning value evaluated. -/
theorem hfC10_params_merge_witness :
    SUPPORTED_TASKS.contains okDriver.client.task = true ∧
    (HFEvent.clientCall
        (okDriver.prompt_stack_to_string (okDriver.pii_processor.before_run sampleStack))
        (dictUnion DEFAULT_PARAMS okDriver.params) ∈ (tryRun okDriver sampleStack).2 ∧
     dictLookup (dictUnion DEFAULT_PARAMS okDriver.params) "max_new_tokens" =
       (if (dictLookup okDriver.params "max_new_tokens").isSome
        then dictLookup okDriver.params "max_new_tokens"
        else dictLookup DEFAULT_PARAMS "max_new_tokens")) ∧
    dictLookup (dictUnion DEFAULT_PARAMS okDriver.params) "max_new_tokens" =
      some (PVal.nat 42) :=
  ⟨by decide, hfC10_params_merge okDriver sampleStack (by decide) "max_new_tokens", by decide⟩

/-- A concrete embedding driver whose model id carries the legacy "001" suffix. -/
def legacyDriver : OpenAiEmbeddingDriver :=
  { model := "text-similarity-ada-001", dimensions := 1536, api_type := "open_ai",
    api_version := none, api_base := "https://api.openai.com/v1", api_key := some "k",
    organization := none }

/-- A concrete embedding driver with the default, non-legacy model id. -/
def adaDriver : OpenAiEmbeddingDriver :=
  { model := "text-embedding-ada-002", dimensions := 1536, api_type := "open_ai",
    api_version := none, api_base := "https://api.openai.com/v1", api_key := some "k",
    organization := some "org" }

/-- A concrete embedding endpoint oracle returning a one-entry "data" list. -/
def oneEntryCreate : EmbeddingParams → EmbeddingResponse :=
  fun _ => { data := [{ embedding := [(1 : Rat), 2] }] }

/-- C2: when the model name ends with the legacy suffix "001", the chunk
submitted by `try_embed_chunk` has every newline replaced by a space; when it
does not, the chunk is submitted unchanged. -/
theorem oaiC2_newline_policy (d : OpenAiEmbeddingDriver)
    (create : EmbeddingParams → EmbeddingResponse) (chunk : String) :
    (pyEndsWith d.model "001" = true →
      (tryEmbedChunk d create chunk).2 = [embeddingParams d (pyReplaceNewline chunk)]) ∧
    (pyEndsWith d.model "001" = false →
      (tryEmbedChunk d create chunk).2 = [embeddingParams d chunk]) := by
  constructor <;> intro h <;> simp [tryEmbedChunk, h]

/-- C2 witness: the theorem applied to a legacy-suffixed driver and to a
non-legacy driver on a chunk holding a newline, with the transformed chunk
evaluated. -/
theorem oaiC2_newline_policy_witness :
    (pyEndsWith legacyDriver.model "001" = true ∧
     (tryEmbedChunk legacyDriver oneEntryCreate "a\nb").2 =
       [embeddingParams legacyDriver (pyReplaceNewline "a\nb")]) ∧
    (pyEndsWith adaDriver.model "001" = false ∧
     (tryEmbedChunk adaDriver oneEntryCreate "a\nb").2 =
       [embeddingParams adaDriver "a\nb"]) ∧
    pyReplaceNewline "a\nb" = "a b" :=
  ⟨⟨by decide, (oaiC2_newline_policy legacyDriver oneEntryCreate "a\nb").1 (by decide)⟩,
   ⟨by decide, (oaiC2_newline_policy adaDriver oneEntryCreate "a\nb").2 (by decide)⟩,
   by decide⟩

/-- C7: `__attrs_post_init__` mutates the process-wide client configuration so
that, after construction, every global field equals the corresponding instance
field, whatever the configuration held before. -/
theorem oaiC7_global_mutation (d : OpenAiEmbeddingDriver) (g : OpenAiGlobalConfig) :
    (attrs_post_init d g).api_type = d.api_type ∧
    (attrs_post_init d g).api_version = d.api_version ∧
    (attrs_post_init d g).api_base = d.api_base ∧
    (attrs_post_init d g).api_key = d.api_key ∧
    (attrs_post_init d g).organization = d.organization :=
  ⟨rfl, rfl, rfl, rfl, rfl⟩

/-- C8: `try_embed_chunk` submits exactly one request, whose keyword arguments
are the possibly newline-transformed chunk together with the configured model,
api_key, organization, api_version, api_base and api_type, and returns the
"embedding" vector of the first entry of the response's "data" list. -/
theorem oaiC8_single_request (d : OpenAiEmbeddingDriver)
    (create : EmbeddingParams → EmbeddingResponse) (chunk : String)
    (e : EmbeddingDataEntry) (rest : List EmbeddingDataEntry)
    (hResp :
      (create (embeddingParams d
        (if pyEndsWith d.model "001" then pyReplaceNewline chunk else chunk))).data =
      e :: rest) :
    tryEmbedChunk d create chunk =
      (some e.embedding,
        [{ input := if pyEndsWith d.model "001" then pyReplaceNewline chunk else chunk,
           model := d.model, api_key := d.api_key, organization := d.organization,
           api_version := d.api_version, api_base := d.api_base,
           api_type := d.api_type }]) := by
  simp only [embeddingParams] at hResp
  simp [tryEmbedChunk, embeddingParams, hResp]

/-- C8 witness: the theorem applied to a concrete driver and oracle, with the
returned vector evaluated. -/
theorem oaiC8_single_request_witness :
    (oneEntryCreate (embeddingParams adaDriver
        (if pyEndsWith adaDriver.model "001" then pyReplaceNewline "hi" else "hi"))).data =
      ({ embedding := [(1 : Rat), 2] } : EmbeddingDataEntry) :: [] ∧
    tryEmbedChunk adaDriver oneEntryCreate "hi" =
      (some ({ embedding := [(1 : Rat), 2] } : EmbeddingDataEntry).embedding,
        [{ input := if pyEndsWith adaDriver.model "001" then pyReplaceNewline "hi" else "hi",
           model := adaDriver.model, api_key := adaDriver.api_key,
           organization := adaDriver.organization, api_version := adaDriver.api_version,
           api_base := adaDriver.api_base, api_type := adaDriver.api_type }]) :=
  ⟨rfl, oaiC8_single_request adaDriver oneEntryCreate "hi"
    { embedding := [(1 : Rat), 2] } [] rfl⟩

end Griptape
